import Mathlib

/-!
Verification development for the Easy Equities Advisor Bot.

The repository's two decision-logic components are embedded shallowly:

* the **Allocation Engine** (`generateAdvancedPortfolio` in
  `advanced-portfolio-generator.ts`): an exact-rational (`ℚ`) model of the
  equity/bond split, volatility and income adjustments, the instrument
  basket decision table, normalization, and the monthly annuity projection;
* the **Intake State Machine** (`generateBotResponse` and the validators in
  `page.tsx`): the slot-filling machine over a partially filled profile,
  with JavaScript truthiness of fields modelled explicitly;
* the **market-conditions fallback** (`getMarketConditions` in
  `data-service.ts`): modelled as a total function over an optional raw
  provider snapshot, `none` standing for a provider failure/outage.

JavaScript numbers are modelled as exact rationals; string formatting
(`toFixed`, `toLocaleString`) is treated as presentational: the numeric
payload of the monthly projection is modelled, not its rendered text.
-/

namespace EEAB

/-- Investment type from the repo: `'once-off' | 'monthly'`. -/
inductive InvestmentType where
  | onceOff
  | monthly
deriving DecidableEq, Repr

/-- Market outlook from `data-service.ts`: `"positive" | "negative"`. -/
inductive Outlook where
  | positive
  | negative
deriving DecidableEq, Repr

/-- The instruments (ETFs) named in the allocation engine's decision table
and bond leg. -/
inductive ETF where
  | globalDividend   -- CoreShares S&P Global Dividend Aristocrats ETF
  | msciWorld        -- Satrix MSCI World ETF
  | saDividend       -- CoreShares S&P South Africa Dividend Aristocrats ETF
  | property         -- Satrix Property ETF
  | top40            -- Satrix Top 40 ETF
  | emergingMarkets  -- Satrix MSCI Emerging Markets ETF
  | saBond           -- Satrix SA Bond ETF
deriving DecidableEq, Repr

/-- `MarketConditions` from `data-service.ts`, restricted to the fields the
allocation engine reads (`marketAnalysis.factors` carries no decision
logic; the narrative description is kept for the fallback claim). -/
structure MarketConditions where
  globalOutlook : Outlook
  spReturn : ℚ
  volatilityIndex : Option ℚ
  analysisDescription : String
deriving DecidableEq, Repr

/-- `UserProfile` as consumed by `generateAdvancedPortfolio`. -/
structure UserProfile where
  age : ℚ
  riskScore : ℚ
  investmentHorizon : Nat
  incomeNeeds : Bool
  investmentType : Option InvestmentType
  monthlyAmount : Option ℚ
deriving DecidableEq, Repr

/-- The JS guard `marketConditions.volatilityIndex &&
marketConditions.volatilityIndex > 25`: an absent index is falsy, and a
present index of `0` is falsy but `0 > 25` is false anyway. -/
def volHigh (mc : MarketConditions) : Bool :=
  match mc.volatilityIndex with
  | some v => decide (v > 25)
  | none => false

/-- `Math.min(0.9, Math.max(0.1, (110 - age) / 100))`. -/
def equityAllocation (p : UserProfile) : ℚ :=
  min 0.9 (max 0.1 ((110 - p.age) / 100))

/-- Initial `bondAllocation = 1 - equityAllocation`. -/
def baseBond (p : UserProfile) : ℚ :=
  1 - equityAllocation p

/-- `(riskScore - 5) / 10`. -/
def riskAdjustment (p : UserProfile) : ℚ :=
  (p.riskScore - 5) / 10

/-- `adjustedEquityAllocation = equityAllocation + riskAdjustment * 0.2`
before the volatility branch. -/
def adjustedEquityPreVol (p : UserProfile) : ℚ :=
  equityAllocation p + riskAdjustment p * 0.2

/-- The value of `adjustedEquityAllocation` after the volatility branch
(`*= 0.9` when the volatility index exceeds 25). -/
def adjustedEquityPreIncome (p : UserProfile) (mc : MarketConditions) : ℚ :=
  if volHigh mc then adjustedEquityPreVol p * 0.9 else adjustedEquityPreVol p

/-- The final value of the mutable `bondAllocation`: the income branch
overwrites it with `Math.min(0.4, bondAllocation + 0.1)`. -/
def bondAllocation (p : UserProfile) : ℚ :=
  if p.incomeNeeds then min 0.4 (baseBond p + 0.1) else baseBond p

/-- The final value of `adjustedEquityAllocation`: the income branch
overwrites it with `1 - bondAllocation` (discarding any volatility
dampening). -/
def adjustedEquity (p : UserProfile) (mc : MarketConditions) : ℚ :=
  if p.incomeNeeds then 1 - bondAllocation p else adjustedEquityPreIncome p mc

/-- The equity-instrument entries inserted by the
`globalOutlook`/`incomeNeeds` branches, in insertion order, with their raw
(pre-normalization) allocations. -/
def equityLeg (p : UserProfile) (mc : MarketConditions) : List (ETF × ℚ) :=
  let a := adjustedEquity p mc
  match mc.globalOutlook, p.incomeNeeds with
  | .positive, true =>
      [(.globalDividend, a * 0.4), (.msciWorld, a * 0.3), (.saDividend, a * 0.3)]
  | .positive, false =>
      [(.msciWorld, a * 0.6), (.emergingMarkets, a * 0.4)]
  | .negative, true =>
      [(.saDividend, a * 0.5), (.property, a * 0.3), (.top40, a * 0.2)]
  | .negative, false =>
      [(.top40, a * 0.7), (.saDividend, a * 0.3)]

/-- The raw portfolio before normalization: the selected equity basket
followed by the bond leg `("Satrix SA Bond ETF", bondAllocation)`. -/
def rawPortfolio (p : UserProfile) (mc : MarketConditions) : List (ETF × ℚ) :=
  equityLeg p mc ++ [(.saBond, bondAllocation p)]

/-- `Object.values(portfolio).reduce((sum, etf) => sum + etf.allocation, 0)`. -/
def totalAllocation (p : UserProfile) (mc : MarketConditions) : ℚ :=
  ((rawPortfolio p mc).map Prod.snd).sum

/-- The normalized portfolio: every allocation divided by the total. -/
def finalPortfolio (p : UserProfile) (mc : MarketConditions) : List (ETF × ℚ) :=
  (rawPortfolio p mc).map (fun x => (x.1, x.2 / totalAllocation p mc))

/-- The `FV = monthlyAmount * ((1+r)^n - 1)/r * (1+r)` annuity formula with
`r = 0.07/12` and `n = horizonYears * 12`. -/
def annuityFV (m : ℚ) (years : Nat) : ℚ :=
  let r : ℚ := 0.07 / 12
  let n : Nat := years * 12
  m * (((1 + r) ^ n - 1) / r) * (1 + r)

/-- The monthly projection: produced under the JS guard
`investmentType === 'monthly' && monthlyAmount && investmentHorizon`
(a zero or absent monthly amount and a zero horizon are falsy). The
modelled value is the numeric future value embedded in the projection
sentence. -/
def monthlyProjection (p : UserProfile) : Option ℚ :=
  match p.investmentType, p.monthlyAmount with
  | some .monthly, some m =>
      if m ≠ 0 ∧ p.investmentHorizon ≠ 0 then some (annuityFV m p.investmentHorizon)
      else none
  | _, _ => none

/-- Result of `generateAdvancedPortfolio`: the normalized portfolio, the
narrative base description (the projection sentence, when present, is
appended to it in the source; its numeric payload is the `projection`
field), and the optional projection. -/
structure AdvancedResult where
  portfolio : List (ETF × ℚ)
  description : String
  projection : Option ℚ
deriving DecidableEq, Repr

/-- The embedded `generateAdvancedPortfolio`. -/
def generateAdvancedPortfolio (p : UserProfile) (mc : MarketConditions) :
    AdvancedResult :=
  { portfolio := finalPortfolio p mc
    description := mc.analysisDescription
    projection := monthlyProjection p }

/-- Sum of the normalized weights of the bond instrument in the final
portfolio (the bond leg occurs exactly once). -/
def finalBondWeight (p : UserProfile) (mc : MarketConditions) : ℚ :=
  (((finalPortfolio p mc).filter (fun x => x.1 == ETF.saBond)).map Prod.snd).sum

/-- Sum of the normalized weights of all equity (non-bond) instruments in
the final portfolio. -/
def finalEquityTotal (p : UserProfile) (mc : MarketConditions) : ℚ :=
  (((finalPortfolio p mc).filter (fun x => x.1 != ETF.saBond)).map Prod.snd).sum

/-! ### Market-conditions provider (`data-service.ts`) -/

/-- The raw quotes `getMarketConditions` reads on the success path:
`^GSPC regularMarketChangePercent` and `^VIX regularMarketPrice`. -/
structure RawMarketQuotes where
  spReturn : ℚ
  vix : ℚ
deriving DecidableEq, Repr

/-- `generateMarketDescription` from `data-service.ts`. The `if (vix)`
guard is JS truthiness: an absent or zero VIX adds no volatility clause. -/
def generateMarketDescription (spReturn : ℚ) (vix : Option ℚ) : String :=
  let d :=
    if spReturn > 2 then "Markets are showing strong bullish momentum"
    else if spReturn > 0 then "Markets are slightly positive with moderate growth potential"
    else if spReturn > -2 then "Markets are showing slight weakness but remain stable"
    else "Markets are experiencing significant downward pressure"
  match vix with
  | some v =>
      if v ≠ 0 then
        d ++ (if v < 15 then ", with low volatility indicating stable conditions"
              else if v < 25 then ", with moderate market volatility"
              else ", with high volatility suggesting increased uncertainty")
      else d
  | none => d

/-- `getMarketConditions`, modelled as a total function over an optional
raw snapshot: `none` stands for a provider fetch failure, handled by the
source's `catch` block, which returns the hard-coded default instead of
re-raising. Totality of this function is the "never fails the request"
property. -/
def getMarketConditions : Option RawMarketQuotes → MarketConditions
  | some q =>
      { globalOutlook := if q.spReturn > 0 then .positive else .negative
        spReturn := q.spReturn
        volatilityIndex := some q.vix
        analysisDescription := generateMarketDescription q.spReturn (some q.vix) }
  | none =>
      { globalOutlook := .positive
        spReturn := 0
        volatilityIndex := none
        analysisDescription := "Market data unavailable" }

/-! ### Intake state machine (`page.tsx`) -/

/-- The profile accumulated by the chat intake (`UserProfile` in
`page.tsx`), with unanswered fields absent. The source stores
`investmentAmount` and `monthlyAmount` as the decimal string
`amount.toString()`; the parsed numeric value is modelled (the stored
string is non-empty, hence truthy, exactly when the option is `some`). -/
structure IntakeProfile where
  investmentGoal : Option String := none
  timeHorizon : Option Nat := none
  riskTolerance : Option String := none
  incomeNeeds : Option String := none
  investmentAmount : Option ℚ := none
  investmentType : Option InvestmentType := none
  monthlyAmount : Option ℚ := none
deriving DecidableEq, Repr

/-- JS truthiness of an optional string field: absent or empty is falsy. -/
def strSet : Option String → Bool
  | none => false
  | some s => !s.isEmpty

/-- JS truthiness of an optional numeric field: absent or zero is falsy. -/
def natSet : Option Nat → Bool
  | none => false
  | some n => n != 0

/-- `input.toLowerCase()`. -/
def lowerStr (s : String) : String :=
  String.mk (s.data.map Char.toLower)

/-- Numeric value of a digit string (JS `parseInt` on an all-digit
string). -/
def digitsToNat (l : List Char) : Nat :=
  l.foldl (fun a c => a * 10 + (c.toNat - 48)) 0

/-- `validateTimeHorizon`: lower-case, strip every non-digit, `parseInt`;
valid iff `0 < years ≤ 50`. An all-stripped (empty) string is `NaN`. -/
def validateTimeHorizon (s : String) : Option Nat :=
  let ds := (lowerStr s).data.filter Char.isDigit
  if ds.isEmpty then none
  else
    let n := digitsToNat ds
    if 0 < n ∧ n ≤ 50 then some n else none

/-- `validateRiskTolerance`: the lower-cased input when it is one of
`low`, `medium`, `high`. -/
def validateRiskTolerance (s : String) : Option String :=
  let risk := lowerStr s
  if risk = "low" ∨ risk = "medium" ∨ risk = "high" then some risk else none

/-- JS `parseFloat` on a string containing only digits and dots: a leading
digit run, optionally a dot and a second digit run; `NaN` (here `none`)
when no digit is consumed. -/
def parseFloatL (l : List Char) : Option ℚ :=
  let ip := l.takeWhile Char.isDigit
  let rest := l.drop ip.length
  let fp :=
    match rest with
    | '.' :: r => r.takeWhile Char.isDigit
    | _ => []
  if ip.isEmpty ∧ fp.isEmpty then none
  else some ((digitsToNat ip : ℚ) + (digitsToNat fp : ℚ) / 10 ^ fp.length)

/-- `validateAmount`: strip everything but digits and dots, `parseFloat`;
valid iff the result is a (finite) positive number. -/
def validateAmount (s : String) : Option ℚ :=
  match parseFloatL (s.data.filter (fun c => c.isDigit || c == '.')) with
  | none => none
  | some q => if 0 < q then some q else none

/-- The bot responses of `generateBotResponse`, by kind: advancing prompts
(`ask…`), re-prompts describing the expected format (`re…`), the rendered
advice (the terminal message), and the post-completion refusal. -/
inductive Prompt where
  | askHorizon | askRisk | askIncome | askAmount | askType | askMonthly
  | reGoal | reHorizon | reRisk | reIncome | reAmount | reType | reMonthly
  | advice
  | alreadyDone
deriving DecidableEq, Repr

/-- One intake step's outcome: the (possibly updated) profile, which bot
response was emitted, and whether the step rendered the terminal advice. -/
structure StepResult where
  profile : IntakeProfile
  prompt : Prompt
  final : Bool
deriving DecidableEq, Repr

/-- The intake transition function: the branch cascade of
`generateBotResponse`, one branch per pending field in source order. The
two portfolio-generating branches are the terminal (`final := true`)
steps. -/
def advance (p : IntakeProfile) (input : String) : StepResult :=
  if !strSet p.investmentGoal then
    match validateAmount input with
    | some _ => ⟨{ p with investmentGoal := some input }, .askHorizon, false⟩
    | none => ⟨p, .reGoal, false⟩
  else if !natSet p.timeHorizon then
    match validateTimeHorizon input with
    | some n => ⟨{ p with timeHorizon := some n }, .askRisk, false⟩
    | none => ⟨p, .reHorizon, false⟩
  else if !strSet p.riskTolerance then
    match validateRiskTolerance input with
    | some r => ⟨{ p with riskTolerance := some r }, .askIncome, false⟩
    | none => ⟨p, .reRisk, false⟩
  else if !strSet p.incomeNeeds then
    if lowerStr input = "yes" ∨ lowerStr input = "no" then
      ⟨{ p with incomeNeeds := some (lowerStr input) }, .askAmount, false⟩
    else ⟨p, .reIncome, false⟩
  else if !p.investmentAmount.isSome then
    match validateAmount input with
    | some q => ⟨{ p with investmentAmount := some q }, .askType, false⟩
    | none => ⟨p, .reAmount, false⟩
  else if !p.investmentType.isSome then
    if lowerStr input = "once-off" then
      ⟨{ p with investmentType := some .onceOff }, .advice, true⟩
    else if lowerStr input = "monthly" then
      ⟨{ p with investmentType := some .monthly }, .askMonthly, false⟩
    else ⟨p, .reType, false⟩
  else if p.investmentType == some .monthly && !p.monthlyAmount.isSome then
    match validateAmount input with
    | some q => ⟨{ p with monthlyAmount := some q }, .advice, true⟩
    | none => ⟨p, .reMonthly, false⟩
  else
    ⟨p, .alreadyDone, false⟩

/-- The seven profile fields, in the source's canonical intake order. -/
inductive Slot where
  | goal | horizon | risk | income | amount | itype | monthly
deriving DecidableEq, Repr

/-- The first pending field of a profile, following the branch order of
`generateBotResponse` (meaningful only for incomplete profiles;
defaults to `monthly`). -/
def pendingSlot (p : IntakeProfile) : Slot :=
  if !strSet p.investmentGoal then .goal
  else if !natSet p.timeHorizon then .horizon
  else if !strSet p.riskTolerance then .risk
  else if !strSet p.incomeNeeds then .income
  else if !p.investmentAmount.isSome then .amount
  else if !p.investmentType.isSome then .itype
  else .monthly

/-- Whether an input passes the validator the source runs for a given
pending field. -/
def validInput : Slot → String → Bool
  | .goal, s => (validateAmount s).isSome
  | .horizon, s => (validateTimeHorizon s).isSome
  | .risk, s => (validateRiskTolerance s).isSome
  | .income, s => lowerStr s == "yes" || lowerStr s == "no"
  | .amount, s => (validateAmount s).isSome
  | .itype, s => lowerStr s == "once-off" || lowerStr s == "monthly"
  | .monthly, s => (validateAmount s).isSome

/-- The re-prompt the source emits when a given pending field's validator
rejects the input. -/
def repromptFor : Slot → Prompt
  | .goal => .reGoal
  | .horizon => .reHorizon
  | .risk => .reRisk
  | .income => .reIncome
  | .amount => .reAmount
  | .itype => .reType
  | .monthly => .reMonthly

/-- A profile is complete exactly when the source's final `else` branch
(the "already provided a portfolio" refusal) is reached: every base field
is set and, when the investment type resolved to `monthly`, the monthly
amount is set too. -/
def complete (p : IntakeProfile) : Bool :=
  strSet p.investmentGoal && natSet p.timeHorizon && strSet p.riskTolerance &&
    strSet p.incomeNeeds && p.investmentAmount.isSome && p.investmentType.isSome &&
    !(p.investmentType == some .monthly && !p.monthlyAmount.isSome)

/-- The canonical-order invariant: a field is truthy only when every field
preceding it in the canonical order is truthy, and the monthly amount is
set only under the monthly branch. -/
def ordered (p : IntakeProfile) : Bool :=
  (!natSet p.timeHorizon || strSet p.investmentGoal) &&
  (!strSet p.riskTolerance || natSet p.timeHorizon) &&
  (!strSet p.incomeNeeds || strSet p.riskTolerance) &&
  (!p.investmentAmount.isSome || strSet p.incomeNeeds) &&
  (!p.investmentType.isSome || p.investmentAmount.isSome) &&
  (!p.monthlyAmount.isSome || p.investmentType == some .monthly)

/-- The empty profile the conversation starts from. -/
def emptyProfile : IntakeProfile := {}

/-- Profiles reachable by the intake machine from the empty profile. -/
inductive Reachable : IntakeProfile → Prop where
  | init : Reachable emptyProfile
  | step {p : IntakeProfile} (input : String) :
      Reachable p → Reachable (advance p input).profile

/-- The spec's instrument decision table, keyed by outlook × income needs,
with each cell's fractional sub-weights of the equity allocation. Stated
from the spec's words, to be compared against the engine's `equityLeg`. -/
def specBasketTable : Outlook → Bool → List (ETF × ℚ)
  | .positive, true => [(.globalDividend, 0.4), (.msciWorld, 0.3), (.saDividend, 0.3)]
  | .positive, false => [(.msciWorld, 0.6), (.emergingMarkets, 0.4)]
  | .negative, true => [(.saDividend, 0.5), (.property, 0.3), (.top40, 0.2)]
  | .negative, false => [(.top40, 0.7), (.saDividend, 0.3)]

/-! ### Allocation-engine lemmas -/

theorem equityAllocation_lb (p : UserProfile) : 1 / 10 ≤ equityAllocation p := by
  unfold equityAllocation
  exact le_min (by norm_num) (le_trans (by norm_num) (le_max_left _ _))

theorem equityAllocation_ub (p : UserProfile) : equityAllocation p ≤ 9 / 10 :=
  le_trans (min_le_left _ _) (by norm_num)

theorem adjustedEquityPreVol_lb (p : UserProfile) (h : 1 ≤ p.riskScore) :
    1 / 50 ≤ adjustedEquityPreVol p := by
  have he := equityAllocation_lb p
  unfold adjustedEquityPreVol riskAdjustment
  rw [show (0.2 : ℚ) = 1 / 5 from by norm_num]
  linarith

theorem adjustedEquityPreIncome_lb (p : UserProfile) (mc : MarketConditions)
    (h : 1 ≤ p.riskScore) : 9 / 500 ≤ adjustedEquityPreIncome p mc := by
  have hv := adjustedEquityPreVol_lb p h
  unfold adjustedEquityPreIncome
  split
  · rw [show (0.9 : ℚ) = 9 / 10 from by norm_num]; linarith
  · linarith

theorem adjustedEquity_lb (p : UserProfile) (mc : MarketConditions)
    (h : 1 ≤ p.riskScore) : 9 / 500 ≤ adjustedEquity p mc := by
  cases hp : p.incomeNeeds with
  | true =>
      have hm : min (0.4 : ℚ) (baseBond p + 0.1) ≤ 0.4 := min_le_left _ _
      simp only [adjustedEquity, bondAllocation, hp, if_true]
      rw [show (0.4 : ℚ) = 2 / 5 from by norm_num] at hm
      linarith
  | false =>
      simp only [adjustedEquity, hp, Bool.false_eq_true, if_false]
      exact adjustedEquityPreIncome_lb p mc h

theorem bondAllocation_lb (p : UserProfile) : 1 / 10 ≤ bondAllocation p := by
  have := equityAllocation_ub p
  unfold bondAllocation baseBond
  split
  · refine le_min (by norm_num) ?_
    rw [show (0.1 : ℚ) = 1 / 10 from by norm_num]
    linarith
  · linarith

theorem equityLeg_sum (p : UserProfile) (mc : MarketConditions) :
    ((equityLeg p mc).map Prod.snd).sum = adjustedEquity p mc := by
  unfold equityLeg
  cases hmc : mc.globalOutlook <;> cases hp : p.incomeNeeds <;> simp <;> ring

theorem totalAllocation_eq (p : UserProfile) (mc : MarketConditions) :
    totalAllocation p mc = adjustedEquity p mc + bondAllocation p := by
  unfold totalAllocation rawPortfolio
  rw [List.map_append, List.sum_append, equityLeg_sum]
  simp

theorem totalAllocation_pos (p : UserProfile) (mc : MarketConditions)
    (h : 1 ≤ p.riskScore) : 0 < totalAllocation p mc := by
  rw [totalAllocation_eq]
  have h1 := adjustedEquity_lb p mc h
  have h2 := bondAllocation_lb p
  linarith

theorem sum_map_div (l : List (ETF × ℚ)) (t : ℚ) :
    ((l.map fun x => (x.1, x.2 / t)).map Prod.snd).sum = (l.map Prod.snd).sum / t := by
  induction l with
  | nil => simp
  | cons h tl ih => simp only [List.map_cons, List.sum_cons, ih, add_div]

/-! ### Claim theorems: allocation engine -/

/-- C1: for every profile with a valid risk score and every market
context, every raw weight is divided by the sum of raw weights, so the
final weights sum to 1 within tolerance `1e-9` (in the exact-rational
model the sum is exactly 1). -/
theorem final_weights_sum_to_one (p : UserProfile) (mc : MarketConditions)
    (h1 : 1 ≤ p.riskScore) (h2 : p.riskScore ≤ 10) :
    |((finalPortfolio p mc).map Prod.snd).sum - 1| ≤ 1 / 1000000000 := by
  have hT := totalAllocation_pos p mc h1
  unfold finalPortfolio
  rw [sum_map_div]
  have hraw : ((rawPortfolio p mc).map Prod.snd).sum = totalAllocation p mc := rfl
  rw [hraw, div_self hT.ne', sub_self, abs_zero]
  norm_num

/-- Witness for C1 at the concrete profile (age 30, risk 5, horizon 10,
no income) and a concrete positive-outlook context. -/
theorem final_weights_sum_to_one_spot :
    |((finalPortfolio ⟨30, 5, 10, false, none, none⟩
        ⟨Outlook.positive, 1, some 10, "x"⟩).map Prod.snd).sum - 1| ≤ 1 / 1000000000 :=
  final_weights_sum_to_one _ _ (by norm_num) (by norm_num)

/-- C4: the equity basket is exactly the fixed (outlook × incomeNeeds)
decision table of the spec — each cell's instruments receive the cell's
sub-weight times the adjusted equity allocation — and each cell's
sub-weights sum to 1. -/
theorem basket_matches_spec_table :
    (∀ o inc, ((specBasketTable o inc).map Prod.snd).sum = 1) ∧
    (∀ (p : UserProfile) (mc : MarketConditions),
      equityLeg p mc = (specBasketTable mc.globalOutlook p.incomeNeeds).map
        fun x => (x.1, adjustedEquity p mc * x.2)) := by
  constructor
  · intro o inc
    cases o <;> cases inc <;> norm_num [specBasketTable]
  · intro p mc
    unfold equityLeg specBasketTable
    cases hmc : mc.globalOutlook <;> cases hp : p.incomeNeeds <;> simp

/-- The spec's example profile: age 30 (the hard-coded default), risk
score 5 (medium), horizon 10 years, no income needs. -/
def scenarioProfile : UserProfile := ⟨30, 5, 10, false, none, none⟩

/-- C5: for age 30, risk score 5, horizon 10, no income needs, positive
outlook and volatility not above 25: base equity 0.8, zero risk
adjustment, no volatility adjustment, and the normalized portfolio is
exactly MSCI World 0.48, Emerging Markets 0.32, SA Bond 0.20. -/
theorem scenario_age30_medium (mc : MarketConditions)
    (ho : mc.globalOutlook = Outlook.positive) (hv : volHigh mc = false) :
    equityAllocation scenarioProfile = 0.8 ∧
    riskAdjustment scenarioProfile = 0 ∧
    adjustedEquity scenarioProfile mc = 0.8 ∧
    finalPortfolio scenarioProfile mc =
      [(.msciWorld, 0.48), (.emergingMarkets, 0.32), (.saBond, 0.2)] := by
  refine ⟨?_, ?_, ?_, ?_⟩
  · norm_num [equityAllocation, scenarioProfile, min_def, max_def]
  · norm_num [riskAdjustment, scenarioProfile]
  · simp only [adjustedEquity, adjustedEquityPreIncome, adjustedEquityPreVol,
      equityAllocation, riskAdjustment, scenarioProfile, hv]
    norm_num [min_def, max_def]
  · simp only [finalPortfolio, rawPortfolio, equityLeg, totalAllocation,
      adjustedEquity, adjustedEquityPreIncome, adjustedEquityPreVol,
      equityAllocation, riskAdjustment, bondAllocation, baseBond,
      scenarioProfile, ho, hv, List.map_append, List.map_cons, List.map_nil,
      List.sum_append, List.sum_cons, List.sum_nil]
    norm_num [min_def, max_def]

/-- Witness for C5 at a concrete positive-outlook, low-volatility market
context. -/
theorem scenario_age30_medium_spot :
    finalPortfolio scenarioProfile ⟨Outlook.positive, 1, some 10, "x"⟩ =
      [(.msciWorld, 0.48), (.emergingMarkets, 0.32), (.saBond, 0.2)] :=
  (scenario_age30_medium ⟨Outlook.positive, 1, some 10, "x"⟩ rfl (by decide)).2.2.2

theorem finalBondWeight_eq (p : UserProfile) (mc : MarketConditions) :
    finalBondWeight p mc = bondAllocation p / totalAllocation p mc := by
  unfold finalBondWeight finalPortfolio rawPortfolio equityLeg
  cases hmc : mc.globalOutlook <;> cases hp : p.incomeNeeds <;> simp [hmc, hp]

theorem finalEquityTotal_eq (p : UserProfile) (mc : MarketConditions) :
    finalEquityTotal p mc = adjustedEquity p mc / totalAllocation p mc := by
  unfold finalEquityTotal finalPortfolio rawPortfolio equityLeg
  cases hmc : mc.globalOutlook <;> cases hp : p.incomeNeeds <;>
    simp [hmc, hp, div_add_div_same] <;> (congr 1; ring)

theorem equityAllocation_ge_of_age (p : UserProfile) (h : p.age ≤ 50) :
    3 / 5 ≤ equityAllocation p := by
  unfold equityAllocation
  refine le_min (by norm_num) (le_trans ?_ (le_max_right _ _))
  linarith

/-- C2 counterexample: at age 60 (base bond allocation 0.5) with risk
score 5 and calm markets, the income-needs run caps the bond weight at
0.4, strictly below the 0.5 bond weight of the no-income run. -/
theorem income_bond_weight_counterexample :
    finalBondWeight ⟨60, 5, 10, true, none, none⟩ ⟨Outlook.positive, 1, some 10, "x"⟩ <
      finalBondWeight ⟨60, 5, 10, false, none, none⟩ ⟨Outlook.positive, 1, some 10, "x"⟩ := by
  rw [finalBondWeight_eq, finalBondWeight_eq, totalAllocation_eq, totalAllocation_eq]
  norm_num [adjustedEquity, adjustedEquityPreIncome, adjustedEquityPreVol, equityAllocation,
    riskAdjustment, bondAllocation, baseBond, volHigh, min_def, max_def]

/-- C2 (amended): for profiles with age at most 50 (so the base bond
allocation is at most 0.4), risk score at least 5 and no high-volatility
dampening, the final bond weight with income needs is at least the final
bond weight of the otherwise identical profile without income needs. -/
theorem income_raises_bond_weight (p : UserProfile) (mc : MarketConditions)
    (hage : p.age ≤ 50) (hrs : 5 ≤ p.riskScore) (hv : volHigh mc = false) :
    finalBondWeight { p with incomeNeeds := false } mc ≤
      finalBondWeight { p with incomeNeeds := true } mc := by
  rw [finalBondWeight_eq, finalBondWeight_eq, totalAllocation_eq, totalAllocation_eq]
  have h1 : equityAllocation { p with incomeNeeds := false } = equityAllocation p := rfl
  have h2 : equityAllocation { p with incomeNeeds := true } = equityAllocation p := rfl
  have h3 : riskAdjustment { p with incomeNeeds := false } = riskAdjustment p := rfl
  have h4 : ({ p with incomeNeeds := false } : UserProfile).incomeNeeds = false := rfl
  have h5 : ({ p with incomeNeeds := true } : UserProfile).incomeNeeds = true := rfl
  simp only [adjustedEquity, adjustedEquityPreIncome, adjustedEquityPreVol,
    bondAllocation, baseBond, h1, h2, h3, h4, h5, hv, Bool.false_eq_true,
    if_true, if_false]
  rw [show (0.4 : ℚ) = 2 / 5 from by norm_num, show (0.1 : ℚ) = 1 / 10 from by norm_num,
    show (0.2 : ℚ) = 1 / 5 from by norm_num]
  have he6 := equityAllocation_ge_of_age p hage
  have heu := equityAllocation_ub p
  have hra : 0 ≤ riskAdjustment p := by unfold riskAdjustment; linarith
  rw [sub_add_cancel, div_one]
  have hb1 : 1 - equityAllocation p ≤ min (2 / 5) (1 - equityAllocation p + 1 / 10) :=
    le_min (by linarith) (by linarith)
  refine le_trans (div_le_self (by linarith) (by linarith)) hb1

/-- C3 counterexample: with income needs, the income override overwrites
the volatility-dampened equity with `1 - bondAllocation`, so the equity
totals at volatility 30 and 10 are equal (0.7 each), not strictly
ordered. -/
theorem volatility_dampening_counterexample :
    ¬ (finalEquityTotal ⟨30, 5, 10, true, none, none⟩ ⟨Outlook.positive, 1, some 30, "x"⟩ <
        finalEquityTotal ⟨30, 5, 10, true, none, none⟩ ⟨Outlook.positive, 1, some 10, "x"⟩) := by
  norm_num [finalEquityTotal, finalPortfolio, rawPortfolio, equityLeg, totalAllocation,
    adjustedEquity, adjustedEquityPreIncome, adjustedEquityPreVol, equityAllocation,
    riskAdjustment, bondAllocation, baseBond, volHigh, min_def, max_def]

/-- C3 (amended): for profiles without income needs and a valid risk
score, the request with volatility index 30 ends with a strictly lower
total equity weight than the otherwise identical request with volatility
index 10. -/
theorem volatility_dampening_lowers_equity (p : UserProfile) (mc : MarketConditions)
    (hinc : p.incomeNeeds = false) (hrs : 1 ≤ p.riskScore) :
    finalEquityTotal p { mc with volatilityIndex := some 30 } <
      finalEquityTotal p { mc with volatilityIndex := some 10 } := by
  rw [finalEquityTotal_eq, finalEquityTotal_eq, totalAllocation_eq, totalAllocation_eq]
  have hv30 : volHigh { mc with volatilityIndex := some 30 } = true := by
    simp [volHigh]; norm_num
  have hv10 : volHigh { mc with volatilityIndex := some 10 } = false := by
    simp [volHigh]; norm_num
  simp only [adjustedEquity, adjustedEquityPreIncome, bondAllocation, hinc, hv30, hv10,
    Bool.false_eq_true, if_true, if_false]
  rw [show (0.9 : ℚ) = 9 / 10 from by norm_num]
  have hA := adjustedEquityPreVol_lb p hrs
  have hB : 1 / 10 ≤ baseBond p := by
    have := equityAllocation_ub p; unfold baseBond; linarith
  rw [div_lt_div_iff₀ (by linarith) (by linarith)]
  nlinarith [mul_pos (show (0 : ℚ) < adjustedEquityPreVol p from by linarith)
    (show (0 : ℚ) < baseBond p from by linarith)]

/-- Witness for the amended C2 at age 30, risk 5, calm markets. -/
theorem income_raises_bond_weight_spot :
    finalBondWeight ⟨30, 5, 10, false, none, none⟩ ⟨Outlook.positive, 1, some 10, "x"⟩ ≤
      finalBondWeight ⟨30, 5, 10, true, none, none⟩ ⟨Outlook.positive, 1, some 10, "x"⟩ :=
  income_raises_bond_weight ⟨30, 5, 10, false, none, none⟩ _
    (by norm_num) (by norm_num) (by norm_num [volHigh])

/-- Witness for the amended C3 at age 30, risk 5, no income needs. -/
theorem volatility_dampening_lowers_equity_spot :
    finalEquityTotal ⟨30, 5, 10, false, none, none⟩ ⟨Outlook.positive, 1, some 30, "x"⟩ <
      finalEquityTotal ⟨30, 5, 10, false, none, none⟩ ⟨Outlook.positive, 1, some 10, "x"⟩ :=
  volatility_dampening_lowers_equity ⟨30, 5, 10, false, none, none⟩
    ⟨Outlook.positive, 1, some 10, "x"⟩ rfl (by norm_num)

theorem rawPortfolio_entry_bounds (p : UserProfile) (mc : MarketConditions)
    (h1 : 1 ≤ p.riskScore) :
    ∀ y ∈ rawPortfolio p mc, 0 < y.2 ∧ y.2 < adjustedEquity p mc + bondAllocation p := by
  have ha := adjustedEquity_lb p mc h1
  have hb := bondAllocation_lb p
  unfold rawPortfolio equityLeg
  cases hmc : mc.globalOutlook <;> cases hp : p.incomeNeeds <;>
    simp [hmc, hp] <;> repeat' apply And.intro
  all_goals nlinarith [ha, hb]

/-- C10 counterexample: at age 110, risk score 1 and volatility 30, the
adjusted equity allocation is 0.018, strictly below the claimed 0.02
floor (the volatility dampening multiplies the 0.02 floor by 0.9). -/
theorem adjusted_equity_floor_counterexample :
    adjustedEquity ⟨110, 1, 10, false, none, none⟩ ⟨Outlook.positive, 1, some 30, "x"⟩ < 0.02 := by
  norm_num [adjustedEquity, adjustedEquityPreIncome, adjustedEquityPreVol, equityAllocation,
    riskAdjustment, volHigh, min_def, max_def]

/-- C10 (amended): for every age and risk score in 1..10, the adjusted
equity stays at least 0.018 (0.02 before volatility dampening), the bond
leg at least 0.10, the pre-normalization total is strictly positive, and
every final weight lies strictly between 0 and 1. -/
theorem normalization_well_defined (p : UserProfile) (mc : MarketConditions)
    (h1 : 1 ≤ p.riskScore) (h2 : p.riskScore ≤ 10) :
    9 / 500 ≤ adjustedEquity p mc ∧ 1 / 10 ≤ bondAllocation p ∧
    0 < totalAllocation p mc ∧
    ∀ x ∈ finalPortfolio p mc, 0 < x.2 ∧ x.2 < 1 := by
  have hT := totalAllocation_pos p mc h1
  refine ⟨adjustedEquity_lb p mc h1, bondAllocation_lb p, hT, ?_⟩
  intro x hx
  simp only [finalPortfolio, List.mem_map] at hx
  obtain ⟨y, hy, rfl⟩ := hx
  obtain ⟨hpos, hlt⟩ := rawPortfolio_entry_bounds p mc h1 y hy
  rw [← totalAllocation_eq] at hlt
  exact ⟨div_pos hpos hT, (div_lt_one hT).mpr hlt⟩

/-- Witness for the amended C10 at age 30, risk 5, calm markets. -/
theorem normalization_well_defined_spot :
    0 < totalAllocation ⟨30, 5, 10, false, none, none⟩ ⟨Outlook.positive, 1, some 10, "x"⟩ :=
  (normalization_well_defined ⟨30, 5, 10, false, none, none⟩
    ⟨Outlook.positive, 1, some 10, "x"⟩ (by norm_num) (by norm_num)).2.2.1

/-- C6 counterexample: the code's annuity formula at R1000 monthly over
5 years yields ≈ R72,010.53, more than R65 above the claimed R71,945 —
beyond any rounding tolerance. -/
theorem monthly_projection_value_counterexample :
    65 < annuityFV 1000 5 - 71945 := by
  norm_num [annuityFV]

/-- C6 (amended): for a profile with a positive monthly amount and a
nonzero horizon, a projection is produced exactly when the investment
type is monthly; its value is the ordinary-annuity future value
`m * ((1+r)^n - 1)/r * (1+r)` with `r = 0.07/12` and `n = 12·years`; the
allocation weights never depend on the investment type or monthly amount
(the projection is appended only to the narrative); and for monthly R1000
over 5 years the projected value is ≈ R72,011 (between 72,010 and
72,011), not R71,945. -/
theorem monthly_projection_spec :
    (∀ (p : UserProfile) (m : ℚ), p.monthlyAmount = some m → m ≠ 0 →
      p.investmentHorizon ≠ 0 →
      monthlyProjection p =
        if p.investmentType = some InvestmentType.monthly then
          some (m * (((1 + 0.07 / 12) ^ (p.investmentHorizon * 12) - 1) / (0.07 / 12)) *
            (1 + 0.07 / 12))
        else none) ∧
    (∀ (p : UserProfile) (mc : MarketConditions) (t : Option InvestmentType)
        (m : Option ℚ),
      (generateAdvancedPortfolio { p with investmentType := t, monthlyAmount := m } mc).portfolio =
        (generateAdvancedPortfolio p mc).portfolio) ∧
    72010 < annuityFV 1000 5 ∧ annuityFV 1000 5 < 72011 := by
  refine ⟨?_, ?_, ?_, ?_⟩
  · intro p m hm hm0 hh
    rcases ht : p.investmentType with _ | t
    · simp [monthlyProjection, ht, hm]
    · cases t
      · simp [monthlyProjection, ht, hm]
      · simp [monthlyProjection, ht, hm, hm0, hh, annuityFV]
  · intro p mc t m
    rfl
  · norm_num [annuityFV]
  · norm_num [annuityFV]

/-- Witness for the amended C6: the projection for a monthly profile with
R1000 over 5 years is exactly the annuity future value. -/
theorem monthly_projection_spec_spot :
    monthlyProjection ⟨30, 5, 5, false, some InvestmentType.monthly, some 1000⟩ =
      some (1000 * (((1 + 0.07 / 12) ^ (5 * 12) - 1) / (0.07 / 12)) * (1 + 0.07 / 12)) := by
  have h := monthly_projection_spec.1
    ⟨30, 5, 5, false, some InvestmentType.monthly, some 1000⟩ 1000 rfl
    (by norm_num) (by norm_num)
  simpa using h

/-- C9 counterexample: the provider-failure default leaves the volatility
index absent (`undefined` in the source), not set to zero. -/
theorem market_fallback_counterexample :
    (getMarketConditions none).volatilityIndex ≠ some 0 := by
  simp [getMarketConditions]

/-- C9 (amended): on provider failure, fetching market conditions returns
(total function — never raises) the default context with positive
outlook, zero S&P return and an absent volatility index, which the engine
treats exactly like zero volatility: no dampening, and the full allocation
result is the one a zero-volatility context would give. -/
theorem market_fallback_default :
    getMarketConditions none =
      { globalOutlook := Outlook.positive, spReturn := 0, volatilityIndex := none,
        analysisDescription := "Market data unavailable" } ∧
    volHigh (getMarketConditions none) = false ∧
    ∀ p : UserProfile,
      generateAdvancedPortfolio p (getMarketConditions none) =
        generateAdvancedPortfolio p
          { getMarketConditions none with volatilityIndex := some 0 } :=
  ⟨rfl, rfl, fun _ => rfl⟩

/-! ### Claim theorems: intake state machine -/

/-- C7: for every incomplete profile and every input that fails the
pending field's validator, one intake step returns the profile unchanged,
emits the re-prompt for that field, and is not terminal. -/
theorem invalid_input_reprompts (p : IntakeProfile) (s : String)
    (hc : complete p = false)
    (hv : validInput (pendingSlot p) s = false) :
    advance p s = ⟨p, repromptFor (pendingSlot p), false⟩ := by
  cases h1 : strSet p.investmentGoal with
  | false =>
      have hps : pendingSlot p = Slot.goal := by simp [pendingSlot, h1]
      rw [hps] at hv ⊢
      simp only [validInput] at hv
      cases hva : validateAmount s with
      | some v => rw [hva] at hv; simp at hv
      | none => simp [advance, h1, hva, repromptFor]
  | true =>
    cases h2 : natSet p.timeHorizon with
    | false =>
        have hps : pendingSlot p = Slot.horizon := by simp [pendingSlot, h1, h2]
        rw [hps] at hv ⊢
        simp only [validInput] at hv
        cases hva : validateTimeHorizon s with
        | some v => rw [hva] at hv; simp at hv
        | none => simp [advance, h1, h2, hva, repromptFor]
    | true =>
      cases h3 : strSet p.riskTolerance with
      | false =>
          have hps : pendingSlot p = Slot.risk := by simp [pendingSlot, h1, h2, h3]
          rw [hps] at hv ⊢
          simp only [validInput] at hv
          cases hva : validateRiskTolerance s with
          | some v => rw [hva] at hv; simp at hv
          | none => simp [advance, h1, h2, h3, hva, repromptFor]
      | true =>
        cases h4 : strSet p.incomeNeeds with
        | false =>
            have hps : pendingSlot p = Slot.income := by simp [pendingSlot, h1, h2, h3, h4]
            rw [hps] at hv ⊢
            simp only [validInput, Bool.or_eq_false_iff, beq_eq_false_iff_ne, ne_eq] at hv
            simp [advance, h1, h2, h3, h4, hv.1, hv.2, repromptFor]
        | true =>
          cases h5 : p.investmentAmount with
          | none =>
              have hps : pendingSlot p = Slot.amount := by
                simp [pendingSlot, h1, h2, h3, h4, h5]
              rw [hps] at hv ⊢
              simp only [validInput] at hv
              cases hva : validateAmount s with
              | some v => rw [hva] at hv; simp at hv
              | none => simp [advance, h1, h2, h3, h4, h5, hva, repromptFor]
          | some amt =>
            cases h6 : p.investmentType with
            | none =>
                have hps : pendingSlot p = Slot.itype := by
                  simp [pendingSlot, h1, h2, h3, h4, h5, h6]
                rw [hps] at hv ⊢
                simp only [validInput, Bool.or_eq_false_iff, beq_eq_false_iff_ne, ne_eq] at hv
                simp [advance, h1, h2, h3, h4, h5, h6, hv.1, hv.2, repromptFor]
            | some t =>
              cases t with
              | onceOff =>
                  exfalso
                  simp [complete, h1, h2, h3, h4, h5, h6] at hc
              | monthly =>
                cases h7 : p.monthlyAmount with
                | some m =>
                    exfalso
                    simp [complete, h1, h2, h3, h4, h5, h6, h7] at hc
                | none =>
                    have hps : pendingSlot p = Slot.monthly := by
                      simp [pendingSlot, h1, h2, h3, h4, h5, h6]
                    rw [hps] at hv ⊢
                    simp only [validInput] at hv
                    cases hva : validateAmount s with
                    | some v => rw [hva] at hv; simp at hv
                    | none => simp [advance, h1, h2, h3, h4, h5, h6, h7, hva, repromptFor]

/-- Witness for C7: the empty profile re-prompts on a non-numeric goal
answer. -/
theorem invalid_input_reprompts_spot :
    advance emptyProfile "abc" = ⟨emptyProfile, repromptFor (pendingSlot emptyProfile), false⟩ :=
  invalid_input_reprompts emptyProfile "abc" (by decide) (by decide)

theorem advance_alreadyDone_iff (p : IntakeProfile) (s : String) :
    ((advance p s).prompt = Prompt.alreadyDone) ↔ complete p = true := by
  unfold advance
  repeat' split
  all_goals simp_all [complete, Option.isSome_iff_ne_none]
  all_goals tauto

theorem ordered_of_reachable (p : IntakeProfile) (h : Reachable p) :
    ordered p = true := by
  induction h with
  | init => rfl
  | step input hp ih =>
      unfold advance
      repeat' split
      all_goals simp_all [ordered, Option.isSome_iff_ne_none]

/-- C8: every reachable intake profile satisfies the canonical fill order
(no field set while an earlier one is unset, and a monthly amount only
under the monthly branch), and the machine's terminal "already provided"
response is reached exactly when the profile is complete for its resolved
investment-type branch. -/
theorem intake_canonical_order (p : IntakeProfile) (hp : Reachable p) :
    ordered p = true ∧
    ∀ s : String, ((advance p s).prompt = Prompt.alreadyDone ↔ complete p = true) :=
  ⟨ordered_of_reachable p hp, fun s => advance_alreadyDone_iff p s⟩

/-- Witness for C8 at the (reachable) empty profile. -/
theorem intake_canonical_order_spot :
    ordered emptyProfile = true ∧
    ((advance emptyProfile "x").prompt = Prompt.alreadyDone ↔ complete emptyProfile = true) := by
  have h := intake_canonical_order emptyProfile Reachable.init
  exact ⟨h.1, h.2 "x"⟩

end EEAB
